import Mathlib

/-!
Shallow embedding of `src/home12.py`, a command-line address-book manager.

Python exceptions are modelled by the `PyErr` type; a Python method that can
raise is embedded as a function returning `Except PyErr _` (when the object is
not mutated on failure) or `_ × Option PyErr` (state plus a possibly raised
exception, when the caller observes the state after a raise).  Machine-level
details that do not occur (no overflow, no floats) need no modelling; strings
are Lean `String`s (lists of characters).
-/

namespace Home12

/-- The Python exception classes that the program can raise or catch.
`json.JSONDecodeError` is a subclass of `ValueError`, so a malformed JSON file
is modelled as a `valueError` carrying the decoder message. -/
inductive PyErr where
  | typeError
  | keyError
  | valueError (msg : String)
  | indexError
  | fileNotFound
deriving DecidableEq, Repr

/-- Which `Field` subclass an object belongs to (`Name`, `Phone`, `Birthday`). -/
inductive FieldKind where
  | name
  | phone
  | birthday
deriving DecidableEq, Repr

/-- Python `str.isdigit` restricted to ASCII text: true iff the string is
nonempty and every character is a decimal digit. -/
def pyIsdigit (s : String) : Bool :=
  !s.data.isEmpty && s.data.all Char.isDigit

/-- Python `str.lower` restricted to ASCII text: lower-case every character. -/
def pyLower (s : String) : String :=
  ⟨s.data.map Char.toLower⟩

/-- Python `a in b` on strings: `a` occurs in `b` as a contiguous substring. -/
def strIn (needle hay : String) : Bool :=
  decide (needle.data <:+: hay.data)

/-- Gregorian leap-year test, as used by `datetime.date`. -/
def isLeapYear (y : Int) : Bool :=
  y % 4 == 0 && (y % 100 != 0 || y % 400 == 0)

/-- Number of days in a month of a given year (`datetime.date` calendar). -/
def daysInMonth (y m : Int) : Int :=
  if m = 2 then (if isLeapYear y then 29 else 28)
  else if m = 4 ∨ m = 6 ∨ m = 9 ∨ m = 11 then 30
  else 31

/-- `day, month = map(int, value.split('.'))` followed by
`date(year=2000, month=month, day=day)`: returns the parsed pair when both
components are optionally signed integer literals (modelling CPython `int()`)
and the pair is a valid calendar date in the reference year 2000, and `none`
when any of these raises `ValueError`. -/
def parseDayMonth (v : String) : Option (Int × Int) :=
  match v.splitOn "." with
  | [d, m] =>
    match d.toInt?, m.toInt? with
    | some day, some month =>
      if 1 ≤ month ∧ month ≤ 12 ∧ 1 ≤ day ∧ day ≤ daysInMonth 2000 month then
        some (day, month)
      else
        none
    | _, _ => none
  | _ => none

/-- The `validate` method of each `Field` subclass applied to a candidate
value: `Name` inherits the base no-op, `Phone` requires digit-only text,
`Birthday` requires `"dd.mm"` text forming a valid date in year 2000 and then
re-checks the month and day ranges. -/
def FieldKind.validate : FieldKind → String → Except PyErr Unit
  | .name, _ => .ok ()
  | .phone, v =>
    if pyIsdigit v then .ok ()
    else .error (.valueError "Phone number should only contain digits.")
  | .birthday, v =>
    match parseDayMonth v with
    | none => .error (.valueError "Invalid birthday format. Please use dd.mm format.")
    | some (day, month) =>
      if month < 1 ∨ 12 < month then .error (.valueError "Invalid month value.")
      else if day < 1 ∨ 31 < day then .error (.valueError "Invalid day value.")
      else .ok ()

/-- A `Field` instance: its class together with the stored `_value` string. -/
structure Field where
  kind : FieldKind
  value : String
deriving DecidableEq, Repr

/-- `Field.__init__`: stores the given value directly in `_value` without
calling `validate` (the source assigns `self._value = value`, not the
property). -/
def Field.init (k : FieldKind) (v : String) : Field :=
  ⟨k, v⟩

/-- The `value` property setter: runs the subclass validator on the new value
and assigns only when validation does not raise; on a raise the field is
unchanged and the exception propagates. -/
def Field.setValue (f : Field) (v : String) : Field × Option PyErr :=
  match f.kind.validate v with
  | .error e => (f, some e)
  | .ok _ => ({ f with value := v }, none)

/-- `Phone(value)`: the constructor is inherited from `Field` and never
raises, whatever the text. -/
def Phone.init (v : String) : Except PyErr Field :=
  .ok (Field.init .phone v)

/-- A `Record`: one `Name`, an ordered list of `Phone`s, an optional
`Birthday`. -/
structure Record where
  name : Field
  phone : List Field
  birthday : Option Field
deriving DecidableEq, Repr

/-- `Record.__init__(name, birthday=None)`: a `Birthday` field is created only
when `birthday` is truthy (not `None` and not the empty string); the
constructors store their arguments unvalidated. -/
def Record.init (nm : String) (birthday : Option String) : Record :=
  { name := Field.init .name nm
    phone := []
    birthday :=
      match birthday with
      | some b => if b = "" then none else some (Field.init .birthday b)
      | none => none }

/-- `Record.add_phone`: appends `Phone(phone)`; the constructor does not
validate. -/
def Record.add_phone (r : Record) (p : String) : Record :=
  { r with phone := r.phone ++ [Field.init .phone p] }

/-- `Record.remove_phone`: keeps exactly the phones whose value differs. -/
def Record.remove_phone (r : Record) (p : String) : Record :=
  { r with phone := r.phone.filter (fun q => q.value ≠ p) }

/-- The loop body of `Record.edit_phone`: scan the phones in order; at the
first one whose value equals `old_phone`, assign `new_phone` through the
validating setter and stop (`break`); if the setter raises, the exception
propagates with the list otherwise unchanged. -/
def editPhoneLoop (old_phone new_phone : String) : List Field → List Field × Option PyErr
  | [] => ([], none)
  | p :: rest =>
    if p.value = old_phone then
      ((p.setValue new_phone).1 :: rest, (p.setValue new_phone).2)
    else
      (p :: (editPhoneLoop old_phone new_phone rest).1,
        (editPhoneLoop old_phone new_phone rest).2)

/-- `Record.edit_phone(old_phone, new_phone)`. -/
def Record.edit_phone (r : Record) (old_phone new_phone : String) : Record × Option PyErr :=
  let (ps, err) := editPhoneLoop old_phone new_phone r.phone
  ({ r with phone := ps }, err)

/-- A `datetime.date` value. -/
structure PyDate where
  year : Int
  month : Int
  day : Int
deriving DecidableEq, Repr

/-- `datetime.date` comparison: lexicographic on (year, month, day). -/
def PyDate.lt (a b : PyDate) : Bool :=
  a.year < b.year ∨ (a.year = b.year ∧ (a.month < b.month ∨ (a.month = b.month ∧ a.day < b.day)))

/-- Days before January 1st of year `y` in the proleptic Gregorian calendar
(as in `date.toordinal`). -/
def daysBeforeYear (y : Int) : Int :=
  365 * (y - 1) + (y - 1) / 4 - (y - 1) / 100 + (y - 1) / 400

/-- Cumulative day count before month `m` in a non-leap year. -/
def monthOffset : Int → Int
  | 1 => 0
  | 2 => 31
  | 3 => 59
  | 4 => 90
  | 5 => 120
  | 6 => 151
  | 7 => 181
  | 8 => 212
  | 9 => 243
  | 10 => 273
  | 11 => 304
  | 12 => 334
  | _ => 0

/-- `date.toordinal`: days since December 31st of year 0. -/
def PyDate.toordinal (d : PyDate) : Int :=
  daysBeforeYear d.year + monthOffset d.month
    + (if 2 < d.month ∧ isLeapYear d.year then 1 else 0) + d.day

/-- `date.replace(year=y)`: raises `ValueError` when the day does not exist in
the target year (February 29th in a non-leap year). -/
def PyDate.replaceYear (d : PyDate) (y : Int) : Except PyErr PyDate :=
  if 1 ≤ d.month ∧ d.month ≤ 12 ∧ 1 ≤ d.day ∧ d.day ≤ daysInMonth y d.month then
    .ok ⟨y, d.month, d.day⟩
  else
    .error (.valueError "day is out of range for month")

/-- The call `self.birthday.value.replace(year=today.year)` in the source: the
stored birthday value is the raw `"dd.mm"` string, and `str.replace` accepts
only positional `(old, new)` string arguments, so passing the keyword argument
`year` raises `TypeError` whatever the string and the year. -/
def strReplaceYear (_s : String) (_y : Int) : Except PyErr PyDate :=
  .error .typeError

/-- `Record.days_to_birthday`: returns `None` (falling off the end) when no
birthday is set; otherwise evaluates the source's date arithmetic, whose first
step is `strReplaceYear` on the stored string. -/
def Record.days_to_birthday (r : Record) (today : PyDate) : Except PyErr (Option Int) :=
  match r.birthday with
  | none => .ok none
  | some b =>
    match strReplaceYear b.value today.year with
    | .error e => .error e
    | .ok current_year_birthday =>
      match (if PyDate.lt current_year_birthday today then
               current_year_birthday.replaceYear (today.year + 1)
             else
               .ok current_year_birthday) with
      | .error e => .error e
      | .ok next_birthday => .ok (some (next_birthday.toordinal - today.toordinal))

/-- An `AddressBook`: the `data` dict as an insertion-ordered association list
with unique keys (Python 3.7+ dict semantics). -/
structure AddressBook where
  data : List (String × Record)
deriving DecidableEq, Repr

/-- Dict key lookup `data[name]` / membership `name in data`. -/
def lookupName : List (String × Record) → String → Option Record
  | [], _ => none
  | (k, r) :: rest, n => if k = n then some r else lookupName rest n

/-- Dict assignment `data[n] = r`: overwrites in place when the key exists
(keeping its position), appends otherwise. -/
def insertKey : List (String × Record) → String → Record → List (String × Record)
  | [], n, r => [(n, r)]
  | (k, v) :: rest, n, r =>
    if k = n then (n, r) :: rest else (k, v) :: insertKey rest n r

/-- `AddressBook.add_record`: `self.data[record.name.value] = record`. -/
def AddressBook.add_record (b : AddressBook) (r : Record) : AddressBook :=
  ⟨insertKey b.data r.name.value r⟩

/-- The match test of `search_contacts`: the query occurs in the lower-cased
name, or verbatim in some phone value. -/
def matchesQuery (query : String) (r : Record) : Bool :=
  strIn query (pyLower r.name.value) || r.phone.any (fun p => strIn query p.value)

/-- The loop of `search_contacts`: append matching records in iteration
order. -/
def searchLoop (query : String) : List (String × Record) → List Record
  | [] => []
  | (_, r) :: rest =>
    if matchesQuery query r then r :: searchLoop query rest
    else searchLoop query rest

/-- `AddressBook.search_contacts(query)`. -/
def AddressBook.search_contacts (b : AddressBook) (query : String) : List Record :=
  searchLoop query b.data

/-- The Python values handed to `json.dump` by `save_address_book`: strings,
`None`, lists, string-keyed dicts, and bare `Field` instances. -/
inductive PyVal where
  | pystr (s : String)
  | pynone
  | pylist (xs : List PyVal)
  | pydict (kvs : List (String × PyVal))
  | pyobj (f : Field)

mutual

/-- Whether `json.dump`'s default encoder accepts the value; a `Field`
instance is a plain object and is rejected with `TypeError`. -/
def jsonOk : PyVal → Bool
  | .pystr _ => true
  | .pynone => true
  | .pyobj _ => false
  | .pylist xs => jsonOkList xs
  | .pydict kvs => jsonOkDict kvs

/-- `jsonOk` over the elements of a list. -/
def jsonOkList : List PyVal → Bool
  | [] => true
  | x :: xs => jsonOk x && jsonOkList xs

/-- `jsonOk` over the values of a dict. -/
def jsonOkDict : List (String × PyVal) → Bool
  | [] => true
  | (_, v) :: kvs => jsonOk v && jsonOkDict kvs

end

/-- `record.__dict__`: the attribute dict, whose entries hold the raw `Field`
objects (and `None` for an absent birthday). -/
def Record.dunderDict (r : Record) : PyVal :=
  .pydict
    [ ("name", .pyobj r.name)
    , ("phone", .pylist (r.phone.map PyVal.pyobj))
    , ("birthday", match r.birthday with | some b => .pyobj b | none => .pynone) ]

/-- `AddressBook.save_address_book(filename)`: builds
`{'contacts': [record.__dict__ for record in self.data.values()]}` and hands
it to `json.dump`; returns the dumped document on success and the encoder's
`TypeError` otherwise. -/
def AddressBook.save_address_book (b : AddressBook) : Except PyErr PyVal :=
  let doc := PyVal.pydict [("contacts", .pylist (b.data.map (fun kv => kv.2.dunderDict)))]
  if jsonOk doc then .ok doc else .error .typeError

/-- One entry of the persisted `contacts` list as `load_address_book` reads
it: `record_data['name']`, the `value` of each dict in `record_data['phone']`,
and `record_data['birthday']` (possibly JSON `null`). -/
structure ContactData where
  cname : String
  cphone : List String
  cbirthday : Option String
deriving DecidableEq, Repr

/-- What `open(filename)` followed by `json.load` yields: the file may be
missing (`FileNotFoundError` from `open`), malformed (`json.JSONDecodeError`,
a `ValueError` subclass, from `json.load`), or parsed into a contacts list of
the documented shape. -/
inductive LoadInput where
  | missing
  | malformed
  | parsed (contacts : List ContactData)

/-- The per-entry body of the load loop:
`Record(record_data['name'], record_data['birthday'])` followed by
`record.add_phone(phone['value'])` for each phone dict. -/
def loadRecord (c : ContactData) : Record :=
  c.cphone.foldl Record.add_phone (Record.init c.cname c.cbirthday)

/-- The dict comprehension `{record.name.value: record for record in records}`:
later duplicates overwrite earlier ones in place. -/
def buildDict (rs : List Record) : List (String × Record) :=
  rs.foldl (fun d r => insertKey d r.name.value r) []

/-- `AddressBook.load_address_book(filename)`: on a raise the book is
unchanged and the exception propagates; on success `self.data` is replaced
wholesale by the rebuilt dict. -/
def AddressBook.load_address_book (b : AddressBook) (input : LoadInput) :
    Except PyErr Unit × AddressBook :=
  match input with
  | .missing => (.error .fileNotFound, b)
  | .malformed => (.error (.valueError "Expecting value: line 1 column 1 (char 0)"), b)
  | .parsed contacts => (.ok (), ⟨buildDict (contacts.map loadRecord)⟩)

/-- The `input_error` decorator: runs the handler and converts a raised
`KeyError`, `ValueError` or `IndexError` into a returned message string; any
other exception is not caught. -/
def input_error (r : Except PyErr String) : Except PyErr String :=
  match r with
  | .ok s => .ok s
  | .error .keyError => .ok "Contact not found."
  | .error (.valueError m) => .ok m
  | .error .indexError => .ok "Invalid command."
  | .error e => .error e

/-- Which exception classes `input_error` catches. -/
def isCaught : PyErr → Bool
  | .keyError => true
  | .valueError _ => true
  | .indexError => true
  | _ => false

/-- `handle_add(name, phone, address_book, birthday=None)`: when the name is
already a key, returns the success message and touches nothing; otherwise
builds the record, adds the phone and inserts it. -/
def handle_add (nm ph : String) (address_book : AddressBook) (birthday : Option String) :
    Except PyErr String × AddressBook :=
  if (lookupName address_book.data nm).isSome then
    (.ok "Contact added successfully.", address_book)
  else
    let record := (Record.init nm birthday).add_phone ph
    (.ok "Contact added", address_book.add_record record)

/-- `handle_days_to_birthday(name, address_book)`; `today` is `date.today()`. -/
def handle_days_to_birthday (nm : String) (address_book : AddressBook) (today : PyDate) :
    Except PyErr String :=
  match lookupName address_book.data nm with
  | none => .ok "Contact not found."
  | some record =>
    match record.days_to_birthday today with
    | .error e => .error e
    | .ok none => .ok "No birthday date provided."
    | .ok (some days) =>
      .ok ("Days until " ++ nm ++ "\x27s birthday: " ++ toString days)

/-- The `days to birthday` command path as dispatched by `main`: the
`input_error`-wrapped handler. -/
def days_to_birthday_command (nm : String) (address_book : AddressBook) (today : PyDate) :
    Except PyErr String :=
  input_error (handle_days_to_birthday nm address_book today)

/-- Spec-side match predicate for `search`: the query occurs as a contiguous
substring of the lower-cased record name, or of some phone value. -/
def specMatch (query : String) (r : Record) : Prop :=
  query.data <:+: (pyLower r.name.value).data ∨
    ∃ p ∈ r.phone, query.data <:+: p.value.data

instance (query : String) (r : Record) : Decidable (specMatch query r) := by
  unfold specMatch
  infer_instance

/-! ## Theorems -/

/-- Every error a `validate` method can raise is a `ValueError`. -/
theorem validate_error_is_valueError (k : FieldKind) (v : String) (e : PyErr)
    (h : k.validate v = .error e) : ∃ m, e = .valueError m := by
  cases k with
  | name => exact absurd h (by simp [FieldKind.validate])
  | phone =>
    simp only [FieldKind.validate] at h
    split at h
    · exact absurd h (by simp)
    · injection h with h1
      exact ⟨_, h1.symm⟩
  | birthday =>
    simp only [FieldKind.validate] at h
    split at h
    · injection h with h1
      exact ⟨_, h1.symm⟩
    · split at h
      · injection h with h1
        exact ⟨_, h1.symm⟩
      · split at h
        · injection h with h1
          exact ⟨_, h1.symm⟩
        · exact absurd h (by simp)

/-- C8: assigning a value to a `Field` runs the subtype validator before the
commit; a successful validation commits exactly the new value, and a failing
validation raises a `ValueError` while the field keeps its prior value. -/
theorem setter_validates_before_commit (f : Field) (v : String) :
    (∀ u, f.kind.validate v = .ok u → f.setValue v = ({ f with value := v }, none)) ∧
    (∀ e, f.kind.validate v = .error e →
      f.setValue v = (f, some e) ∧ ∃ m, e = .valueError m) := by
  constructor
  · intro u h
    simp [Field.setValue, h]
  · intro e h
    exact ⟨by simp [Field.setValue, h], validate_error_is_valueError f.kind v e h⟩

/-- C8 witness: a digit-only assignment commits; a non-digit assignment
raises and leaves the phone unchanged. -/
theorem setter_validates_before_commit_wit :
    Field.setValue ⟨.phone, "1"⟩ "23" = (⟨.phone, "23"⟩, none) ∧
    Field.setValue ⟨.phone, "1"⟩ "2a"
      = (⟨.phone, "1"⟩, some (.valueError "Phone number should only contain digits.")) :=
  ⟨(setter_validates_before_commit ⟨.phone, "1"⟩ "23").1 () rfl,
   ((setter_validates_before_commit ⟨.phone, "1"⟩ "2a").2 _ rfl).1⟩

/-- C1 counterexample: `Phone.__init__` stores a value that fails
`Phone.validate`, so a `Field` can hold a value that does not pass its
subtype's validator. -/
theorem field_init_stores_invalid_value :
    (Field.init .phone "abc").value = "abc" ∧
    FieldKind.validate .phone "abc"
      = .error (.valueError "Phone number should only contain digits.") :=
  ⟨rfl, rfl⟩

/-- C1 amended: only assignment enforces validation — a successful assignment
stores a value that passed the subtype validator — while construction stores
the given value without running `validate` at all. -/
theorem field_validation_only_on_assignment (k : FieldKind) (f f' : Field) (v : String) :
    (f.setValue v = (f', none) → f.kind.validate v = .ok () ∧ f' = { f with value := v }) ∧
    (Field.init k v).value = v := by
  constructor
  · intro h
    cases hv : f.kind.validate v with
    | error e => simp [Field.setValue, hv] at h
    | ok u =>
      cases u
      refine ⟨rfl, ?_⟩
      simp [Field.setValue, hv] at h
      exact h.symm
  · rfl

/-- C1 witness: instantiated at a phone assignment and a phone
construction. -/
theorem field_validation_only_on_assignment_wit :
    (FieldKind.validate .phone "23" = .ok () ∧
      (⟨.phone, "23"⟩ : Field) = { (⟨.phone, "1"⟩ : Field) with value := "23" }) ∧
    (Field.init .phone "5").value = "5" :=
  ⟨(field_validation_only_on_assignment .phone ⟨.phone, "1"⟩ ⟨.phone, "23"⟩ "23").1 rfl,
   (field_validation_only_on_assignment .phone ⟨.phone, "1"⟩ ⟨.phone, "23"⟩ "5").2⟩

/-- C6 counterexample: constructing a `Phone` from text containing a
non-digit succeeds (the claim says it fails), although that text fails
`Phone.validate`. -/
theorem phone_init_accepts_nondigit :
    Phone.init "a" = .ok ⟨.phone, "a"⟩ ∧
    FieldKind.validate .phone "a"
      = .error (.valueError "Phone number should only contain digits.") :=
  ⟨rfl, rfl⟩

/-- C6 amended: constructing a `Phone` always succeeds with `value` equal to
the input, whatever the text; the digit-only rule is enforced only when a
value is assigned to an existing field, where any non-digit character is
rejected and nonempty all-digit text is accepted. -/
theorem phone_validation_on_assignment_only (v : String) :
    Phone.init v = .ok (Field.init .phone v) ∧
    (Field.init .phone v).value = v ∧
    ((∃ c ∈ v.data, c.isDigit = false) →
      FieldKind.validate .phone v
        = .error (.valueError "Phone number should only contain digits.")) ∧
    (v.data ≠ [] → (∀ c ∈ v.data, c.isDigit = true) →
      FieldKind.validate .phone v = .ok ()) := by
  refine ⟨rfl, rfl, ?_, ?_⟩
  · rintro ⟨c, hc, hcd⟩
    have hall : v.data.all Char.isDigit = false := by
      rw [Bool.eq_false_iff]
      intro hT
      have := List.all_eq_true.mp hT c hc
      rw [hcd] at this
      exact Bool.noConfusion this
    have hIs : pyIsdigit v = false := by simp [pyIsdigit, hall]
    simp [FieldKind.validate, hIs]
  · intro hne hall
    have h1 : v.data.isEmpty = false := by
      rw [Bool.eq_false_iff]
      intro hT
      exact hne (List.isEmpty_iff.mp hT)
    have h2 : v.data.all Char.isDigit = true := List.all_eq_true.mpr hall
    have hIs : pyIsdigit v = true := by simp [pyIsdigit, h1, h2]
    simp [FieldKind.validate, hIs]

/-- C6 witness: a non-digit string fails validation on assignment; a digit
string passes; both instantiate the amended theorem. -/
theorem phone_validation_on_assignment_only_wit :
    FieldKind.validate .phone "a"
      = .error (.valueError "Phone number should only contain digits.") ∧
    FieldKind.validate .phone "12" = .ok () :=
  ⟨(phone_validation_on_assignment_only "a").2.2.1 ⟨'a', by decide, by decide⟩,
   (phone_validation_on_assignment_only "12").2.2.2 (by decide) (by decide)⟩

/-- The edit loop leaves the list untouched when no phone matches. -/
theorem editPhoneLoop_not_found (old_phone new_phone : String) (ps : List Field)
    (h : ∀ p ∈ ps, p.value ≠ old_phone) :
    editPhoneLoop old_phone new_phone ps = (ps, none) := by
  induction ps with
  | nil => rfl
  | cons p rest ih =>
    have hp : ¬(p.value = old_phone) := h p (List.mem_cons_self p rest)
    have hrest := ih (fun q hq => h q (List.mem_cons_of_mem p hq))
    simp [editPhoneLoop, hp, hrest]

/-- The edit loop assigns through the setter at the first match and stops. -/
theorem editPhoneLoop_found (old_phone new_phone : String) (pre : List Field)
    (p : Field) (post : List Field)
    (hpre : ∀ q ∈ pre, q.value ≠ old_phone) (hp : p.value = old_phone) :
    editPhoneLoop old_phone new_phone (pre ++ p :: post)
      = (pre ++ (p.setValue new_phone).1 :: post, (p.setValue new_phone).2) := by
  induction pre with
  | nil => simp [editPhoneLoop, hp]
  | cons q qre ih =>
    have hq : ¬(q.value = old_phone) := hpre q (List.mem_cons_self q qre)
    have ih' := ih (fun x hx => hpre x (List.mem_cons_of_mem q hx))
    simp [editPhoneLoop, hq, ih']

/-- C9: `edit_phone(old, new)` is a no-op when no phone value equals `old`;
otherwise it validates `new` and replaces the value of exactly the first
matching phone, leaving every other phone unchanged, and on a validation
failure the exception propagates with the record unchanged. -/
theorem edit_phone_replaces_first_match (r : Record) (old_phone new_phone : String) :
    ((∀ p ∈ r.phone, p.value ≠ old_phone) →
      r.edit_phone old_phone new_phone = (r, none)) ∧
    (∀ pre p post, r.phone = pre ++ p :: post →
      (∀ q ∈ pre, q.value ≠ old_phone) → p.value = old_phone →
      (p.kind.validate new_phone = .ok () →
        r.edit_phone old_phone new_phone
          = ({ r with phone := pre ++ { p with value := new_phone } :: post }, none)) ∧
      (∀ e, p.kind.validate new_phone = .error e →
        r.edit_phone old_phone new_phone = (r, some e))) := by
  constructor
  · intro h
    unfold Record.edit_phone
    rw [editPhoneLoop_not_found old_phone new_phone r.phone h]
  · intro pre p post hsplit hpre hp
    constructor
    · intro hval
      unfold Record.edit_phone
      rw [hsplit, editPhoneLoop_found old_phone new_phone pre p post hpre hp]
      simp [Field.setValue, hval]
    · intro e hval
      unfold Record.edit_phone
      rw [hsplit, editPhoneLoop_found old_phone new_phone pre p post hpre hp]
      simp only [Field.setValue, hval]
      rw [← hsplit]

/-- C9 witness: a successful edit of the first matching phone, a no-op on an
absent phone, and a rejected edit with an invalid new number. -/
theorem edit_phone_replaces_first_match_wit :
    Record.edit_phone ⟨⟨.name, "bob"⟩, [⟨.phone, "1"⟩, ⟨.phone, "2"⟩], none⟩ "9" "5"
      = (⟨⟨.name, "bob"⟩, [⟨.phone, "1"⟩, ⟨.phone, "2"⟩], none⟩, none) ∧
    Record.edit_phone ⟨⟨.name, "bob"⟩, [⟨.phone, "1"⟩, ⟨.phone, "2"⟩], none⟩ "2" "33"
      = (⟨⟨.name, "bob"⟩, [⟨.phone, "1"⟩, ⟨.phone, "33"⟩], none⟩, none) ∧
    Record.edit_phone ⟨⟨.name, "bob"⟩, [⟨.phone, "1"⟩, ⟨.phone, "2"⟩], none⟩ "2" "3a"
      = (⟨⟨.name, "bob"⟩, [⟨.phone, "1"⟩, ⟨.phone, "2"⟩], none⟩,
         some (.valueError "Phone number should only contain digits.")) :=
  ⟨(edit_phone_replaces_first_match ⟨⟨.name, "bob"⟩, [⟨.phone, "1"⟩, ⟨.phone, "2"⟩], none⟩
      "9" "5").1 (by decide),
   ((edit_phone_replaces_first_match ⟨⟨.name, "bob"⟩, [⟨.phone, "1"⟩, ⟨.phone, "2"⟩], none⟩
      "2" "33").2 [⟨.phone, "1"⟩] ⟨.phone, "2"⟩ [] rfl (by decide) rfl).1 rfl,
   ((edit_phone_replaces_first_match ⟨⟨.name, "bob"⟩, [⟨.phone, "1"⟩, ⟨.phone, "2"⟩], none⟩
      "2" "3a").2 [⟨.phone, "1"⟩] ⟨.phone, "2"⟩ [] rfl (by decide) rfl).2 _ rfl⟩

/-- C10: when the name is already a key of the book, `handle_add` returns the
success message and leaves the book exactly as it was; the phone and birthday
arguments are discarded. -/
theorem handle_add_existing_name_noop (nm ph : String) (book : AddressBook)
    (birthday : Option String)
    (h : (lookupName book.data nm).isSome = true) :
    handle_add nm ph book birthday = (.ok "Contact added successfully.", book) := by
  simp [handle_add, h]

/-- C10 witness: adding an existing name with a fresh phone and birthday
changes nothing. -/
theorem handle_add_existing_name_noop_wit :
    handle_add "john" "999" ⟨[("john", Record.init "john" none)]⟩ (some "01.01")
      = (.ok "Contact added successfully.", ⟨[("john", Record.init "john" none)]⟩) :=
  handle_add_existing_name_noop "john" "999" ⟨[("john", Record.init "john" none)]⟩
    (some "01.01") rfl

/-- C2: with no birthday set `days_to_birthday` returns `None`, as claimed;
but for every record with a birthday it raises `TypeError` instead of
returning a day count, because the stored birthday is the raw `"dd.mm"`
string and `str.replace` rejects the `year` keyword argument. -/
theorem days_to_birthday_type_error (r : Record) (today : PyDate) :
    (r.birthday = none → r.days_to_birthday today = .ok none) ∧
    (∀ b, r.birthday = some b → r.days_to_birthday today = .error .typeError) := by
  constructor
  · intro h
    simp [Record.days_to_birthday, h]
  · intro b h
    simp [Record.days_to_birthday, h, strReplaceYear]

/-- C2 witness: evaluated at a record without a birthday and at the failing
input, a record whose birthday is `"15.05"`. -/
theorem days_to_birthday_type_error_wit :
    (Record.init "john" none).days_to_birthday ⟨2026, 10, 12⟩ = .ok none ∧
    (Record.init "john" (some "15.05")).days_to_birthday ⟨2026, 10, 12⟩
      = .error .typeError :=
  ⟨(days_to_birthday_type_error (Record.init "john" none) ⟨2026, 10, 12⟩).1 rfl,
   (days_to_birthday_type_error (Record.init "john" (some "15.05")) ⟨2026, 10, 12⟩).2
     (Field.init .birthday "15.05") rfl⟩

/-- C3: `save_address_book` succeeds only on an empty book; for every book
holding at least one record, `json.dump` raises `TypeError` (the record dict
holds bare `Field` objects), so the save/load round trip the claim describes
never completes for a non-empty book. -/
theorem save_address_book_type_error (b : AddressBook) :
    (b.data = [] → b.save_address_book = .ok (.pydict [("contacts", .pylist [])])) ∧
    (∀ nm r rest, b.data = (nm, r) :: rest → b.save_address_book = .error .typeError) := by
  obtain ⟨d⟩ := b
  constructor
  · intro h
    have h' : d = [] := h
    subst h'
    rfl
  · intro nm r rest h
    have h' : d = (nm, r) :: rest := h
    subst h'
    rfl

/-- C3 witness: the empty book saves; a book with one contact raises
`TypeError`. -/
theorem save_address_book_type_error_wit :
    AddressBook.save_address_book ⟨[]⟩ = .ok (.pydict [("contacts", .pylist [])]) ∧
    AddressBook.save_address_book ⟨[("john", (Record.init "john" none).add_phone "123")]⟩
      = .error .typeError :=
  ⟨(save_address_book_type_error ⟨[]⟩).1 rfl,
   (save_address_book_type_error
      ⟨[("john", (Record.init "john" none).add_phone "123")]⟩).2
     "john" ((Record.init "john" none).add_phone "123") [] rfl⟩

/-- C4 counterexample: the `input_error`-wrapped `days to birthday` handler
lets the `TypeError` raised by `days_to_birthday` escape, so not every error
raised inside a handler is converted to a message. -/
theorem wrapped_handler_propagates_type_error :
    days_to_birthday_command "john"
      ⟨[("john", Record.init "john" (some "15.05"))]⟩ ⟨2026, 10, 12⟩
      = .error .typeError :=
  rfl

/-- C4 amended: `input_error` converts exactly a raised `KeyError`,
`ValueError` or `IndexError` into a returned message; results are passed
through, and every other exception class (such as `TypeError`) propagates
uncaught. -/
theorem input_error_catches_exactly_three (r : Except PyErr String) :
    (∀ s, r = .ok s → input_error r = .ok s) ∧
    (∀ e, r = .error e → isCaught e = true → ∃ t, input_error r = .ok t) ∧
    (∀ e, r = .error e → isCaught e = false → input_error r = .error e) := by
  refine ⟨?_, ?_, ?_⟩
  · intro s h
    subst h
    rfl
  · intro e h hc
    subst h
    cases e with
    | keyError => exact ⟨_, rfl⟩
    | valueError m => exact ⟨_, rfl⟩
    | indexError => exact ⟨_, rfl⟩
    | typeError => exact absurd hc (by simp [isCaught])
    | fileNotFound => exact absurd hc (by simp [isCaught])
  · intro e h hc
    subst h
    cases e with
    | keyError => exact absurd hc (by simp [isCaught])
    | valueError m => exact absurd hc (by simp [isCaught])
    | indexError => exact absurd hc (by simp [isCaught])
    | typeError => rfl
    | fileNotFound => rfl

/-- C4 witness: a result passes through, a `KeyError` is converted, and a
`TypeError` propagates. -/
theorem input_error_catches_exactly_three_wit :
    input_error (.ok "hi") = .ok "hi" ∧
    (∃ t, input_error (.error .keyError) = .ok t) ∧
    input_error (.error .typeError) = .error .typeError :=
  ⟨(input_error_catches_exactly_three (.ok "hi")).1 "hi" rfl,
   (input_error_catches_exactly_three (.error .keyError)).2.1 .keyError rfl rfl,
   (input_error_catches_exactly_three (.error .typeError)).2.2 .typeError rfl rfl⟩

/-- C5 counterexample: loading a contact whose phone value `"7a7"` is not
digit-only succeeds — the reconstructed record stores the raw value — even
though that value fails `Phone.validate`, contradicting the claim that load
fails with a validation error. -/
theorem load_accepts_nondigit_phone :
    (AddressBook.load_address_book ⟨[]⟩ (.parsed [⟨"john", ["7a7"], none⟩])).1 = .ok () ∧
    (AddressBook.load_address_book ⟨[]⟩ (.parsed [⟨"john", ["7a7"], none⟩])).2
      = ⟨[("john", ⟨⟨.name, "john"⟩, [⟨.phone, "7a7"⟩], none⟩)]⟩ ∧
    FieldKind.validate .phone "7a7"
      = .error (.valueError "Phone number should only contain digits.") :=
  ⟨rfl, rfl, rfl⟩

/-- Folding `add_phone` over a list appends unvalidated `Phone` fields and
keeps the name. -/
theorem loadRecord_foldl (l : List String) (r : Record) :
    (l.foldl Record.add_phone r).phone = r.phone ++ l.map (Field.init .phone) ∧
    (l.foldl Record.add_phone r).name = r.name := by
  induction l generalizing r with
  | nil => simp
  | cons p rest ih =>
    have h := ih (r.add_phone p)
    rw [List.foldl_cons]
    refine ⟨?_, ?_⟩
    · rw [h.1]
      simp [Record.add_phone]
    · rw [h.2]
      rfl

/-- C5 amended: a missing file fails with `FileNotFoundError` and a malformed
file with `json.JSONDecodeError` (a `ValueError`), leaving the book
unchanged; but a successfully parsed file always loads — the phones are
stored verbatim with no digit validation, because `add_phone` constructs
`Phone` objects through the non-validating `Field.__init__` — and the
in-memory data is fully replaced, independent of the prior contents. -/
theorem load_replaces_data_without_phone_validation
    (b b' : AddressBook) (contacts : List ContactData) :
    (b.load_address_book (.parsed contacts)).1 = .ok () ∧
    (b.load_address_book (.parsed contacts)).2
      = (b'.load_address_book (.parsed contacts)).2 ∧
    (∀ c : ContactData,
      (loadRecord c).phone.map Field.value = c.cphone ∧
      (loadRecord c).name.value = c.cname) ∧
    b.load_address_book .missing = (.error .fileNotFound, b) ∧
    (∃ m, (b.load_address_book .malformed).1 = .error (.valueError m) ∧
      (b.load_address_book .malformed).2 = b) := by
  refine ⟨rfl, rfl, ?_, rfl, ⟨_, rfl, rfl⟩⟩
  intro c
  have h := loadRecord_foldl c.cphone (Record.init c.cname c.cbirthday)
  constructor
  · show (loadRecord c).phone.map Field.value = c.cphone
    unfold loadRecord
    rw [h.1]
    rw [show (Record.init c.cname c.cbirthday).phone = [] from rfl]
    rw [List.nil_append, List.map_map]
    rw [show (Field.value ∘ Field.init FieldKind.phone) = id from rfl, List.map_id]
  · show (loadRecord c).name.value = c.cname
    unfold loadRecord
    rw [h.2]
    rfl

/-- `matchesQuery` decides the spec-side match predicate. -/
theorem matchesQuery_iff (query : String) (r : Record) :
    matchesQuery query r = true ↔ specMatch query r := by
  simp [matchesQuery, strIn, specMatch, List.any_eq_true]

/-- The search loop computes the filter of the values by the match
predicate. -/
theorem searchLoop_eq_filter (query : String) (l : List (String × Record)) :
    searchLoop query l
      = (l.map Prod.snd).filter (fun r => decide (specMatch query r)) := by
  induction l with
  | nil => rfl
  | cons kv rest ih =>
    obtain ⟨k, r⟩ := kv
    by_cases h : matchesQuery query r = true
    · have hd : decide (specMatch query r) = true :=
        decide_eq_true ((matchesQuery_iff query r).mp h)
      simp [searchLoop, h, List.filter_cons, hd, ih]
    · have h' : matchesQuery query r = false := Bool.eq_false_iff.mpr h
      have hd : decide (specMatch query r) = false := by
        rw [decide_eq_false_iff_not]
        exact fun hp => h ((matchesQuery_iff query r).mpr hp)
      simp [searchLoop, h', List.filter_cons, hd, ih]

/-- C7 counterexample: the query is matched verbatim, not case-insensitively:
searching for `"A"` misses the record named `"Anna"`, although the
lower-cased query does occur in the lower-cased name. -/
theorem search_misses_uppercase_query :
    AddressBook.search_contacts ⟨[("Anna", Record.init "Anna" none)]⟩ "A" = [] ∧
    strIn (pyLower "A") (pyLower "Anna") = true :=
  ⟨rfl, rfl⟩

/-- C7 amended: `search_contacts` returns exactly the records whose
lower-cased name contains the query verbatim as a substring, or one of whose
phone values contains the query verbatim, in the book's iteration order (the
REPL lower-cases the query before the call; the function itself does not). -/
theorem search_filters_lowered_name_or_raw_phone (b : AddressBook) (query : String) :
    b.search_contacts query
      = (b.data.map Prod.snd).filter (fun r => decide (specMatch query r)) :=
  searchLoop_eq_filter query b.data

end Home12
